import Mathlib

/-!
Verification of `src/find_largest_files.py`: a command-line utility that
lists files under a directory sorted by size, with error reporting for
inaccessible files and filenames that cannot be encoded for output.

The Python program is shallowly embedded. Filesystem traversal is
represented by the list of entries the chosen `glob`/`rglob` pattern
yields, in traversal order; each entry carries the outcome of
`path.is_file()` and of `path.stat().st_size` (an `OSError` becomes
`none`). A `pathlib.Path` value is represented by the renderings the
program actually uses: `str(path)`, whether printing that string in the
active output encoding succeeds, the lossy surrogateescape/replace
rendering, and `repr(str(path))`. Printed output is modelled as the list
of payloads passed to `print` (one list element per call; an embedded
newline such as the leading `"\n"` of the error-report banner stays
inside its element).
-/

/-- The renderings of a `pathlib.Path` that the program uses: `str(path)`,
whether writing that string in the active output encoding succeeds
(`UnicodeEncodeError` is raised exactly when it does not), the lossy
rendering `str(path).encode("utf-8", "surrogateescape").decode("utf-8",
"replace")`, and `repr(str(path))`. -/
structure PyPath where
  str : String
  encodable : Bool
  lossy : String
  raw : String
deriving DecidableEq, Repr

/-- One filesystem entry yielded by the traversal pattern, with the outcomes
of the two filesystem calls the scanner makes on it: `path.is_file()` and
`path.stat().st_size` (`none` models an `OSError` from `stat`). -/
structure FsEntry where
  path : PyPath
  isFile : Bool
  statResult : Option Nat
deriving DecidableEq, Repr

/-- The state built by the scanning loop of `find_largest_files`
(`file_sizes`, `error_paths`, the progress lines printed so far, and
`file_count`). -/
structure ScanState where
  sizes : List (Nat × PyPath)
  errors : List PyPath
  progress : List String
  count : Nat
deriving DecidableEq, Repr

/-- The loop of `find_largest_files` (source lines 19-30): for each entry
that `is_file()`, a successful `stat` appends `(size, path)` to
`file_sizes` and bumps `file_count`, printing a progress line at every
multiple of 1000; an `OSError` from `stat` appends the path to
`error_paths` and continues. -/
def scanLoop (count : Nat) : List FsEntry → ScanState
  | [] => ⟨[], [], [], count⟩
  | e :: es =>
    if e.isFile then
      match e.statResult with
      | some sz =>
        let r := scanLoop (count + 1) es
        let prog :=
          if (count + 1) % 1000 = 0 then
            ("Scanned " ++ toString (count + 1) ++ " files...") :: r.progress
          else r.progress
        ⟨(sz, e.path) :: r.sizes, r.errors, prog, r.count⟩
      | none =>
        let r := scanLoop count es
        ⟨r.sizes, e.path :: r.errors, r.progress, r.count⟩
    else scanLoop count es

/-- Insertion step of a stable descending sort on the first component,
matching `list.sort(key=lambda pair: pair[0], reverse=True)`: the new
element goes before the first element whose key is not larger, so an
element discovered earlier stays before a later element of equal key. -/
def insertDesc (x : Nat × PyPath) : List (Nat × PyPath) → List (Nat × PyPath)
  | [] => [x]
  | y :: ys => if x.1 < y.1 then y :: insertDesc x ys else x :: y :: ys

/-- Stable descending sort by the first component, the extensional behaviour
of CPython's stable `list.sort` with `key=lambda pair: pair[0]` and
`reverse=True` (source line 33). -/
def sortDesc (l : List (Nat × PyPath)) : List (Nat × PyPath) :=
  l.foldr insertDesc []

/-- The value of `find_largest_files` (source lines 11-34): the sorted
`(size, path)` list, the paths whose `stat` raised `OSError`, and the
lines printed to stdout during the scan (progress lines, and the final
`Scanned N files total` line when at least one file was sized). -/
structure FindResult where
  fileSizes : List (Nat × PyPath)
  errorPaths : List PyPath
  stdoutLines : List String
deriving DecidableEq, Repr

/-- `find_largest_files` (source lines 11-34) over the traversal's entry
list. -/
def find_largest_files (entries : List FsEntry) : FindResult :=
  let r := scanLoop 0 entries
  let outs :=
    if 0 < r.count then
      r.progress ++ ["Scanned " ++ toString r.count ++ " files total. Sorting..."]
    else r.progress
  ⟨sortDesc r.sizes, r.errors, outs⟩

/-- Nearest integer to `num / den` with ties to even, the rounding of
CPython's `format(x, ".1f")` on the exactly-representable doubles that
`format_size` produces (every intermediate `size` is `n / 1024^k`, which
double arithmetic computes exactly for `n < 2^53`; for larger `n` only the
`PB` branch is reached). `den` is positive at every use. -/
def roundHalfEven (num den : Nat) : Nat :=
  let q := num / den
  let r := num % den
  if 2 * r < den then q
  else if den < 2 * r then q + 1
  else if q % 2 = 0 then q else q + 1

/-- `f-string` rendering with one fractional digit, `f"\x7bsize:.1f\x7d"`:
the value `n / den` rounded to tenths, written `whole.tenth`. -/
def fmt1 (n den : Nat) : String :=
  let s := roundHalfEven (n * 10) den
  toString (s / 10) ++ "." ++ toString (s % 10)

/-- `format_size` (source lines 37-43): the loop over units `B`, `KB`, `MB`,
`GB`, `TB` divides by 1024 while the value is at least 1024, falling
through to `PB`; unrolled, iteration `k` compares `n / 1024^k` with 1024,
i.e. `n` with `1024^(k+1)`. -/
def format_size (n : Nat) : String :=
  if n < 1024 then fmt1 n 1 ++ "B"
  else if n < 1024 ^ 2 then fmt1 n 1024 ++ "KB"
  else if n < 1024 ^ 3 then fmt1 n (1024 ^ 2) ++ "MB"
  else if n < 1024 ^ 4 then fmt1 n (1024 ^ 3) ++ "GB"
  else if n < 1024 ^ 5 then fmt1 n (1024 ^ 4) ++ "TB"
  else fmt1 n (1024 ^ 5) ++ "PB"

/-- Modelled from the spec's wording of unit selection, for comparison with
`format_size`: unit `B` when `n < 1024`, `KB` when `1024 ≤ n < 1024²`, and
so on through `MB`, `GB`, `TB`, capping at `PB` for all `n ≥ 1024⁵`. -/
def unitOf (n : Nat) : String :=
  if n < 1024 then "B"
  else if n < 1024 ^ 2 then "KB"
  else if n < 1024 ^ 3 then "MB"
  else if n < 1024 ^ 4 then "GB"
  else if n < 1024 ^ 5 then "TB"
  else "PB"

/-- The parsed command-line arguments the reporting phase reads
(`argparse.Namespace` fields of `parse_args`, source lines 46-93).
`noRecursive` selects the traversal pattern and is consumed before the
entry list of the model is formed. -/
structure Args where
  directory : String
  num : Option Int
  humanReadable : Bool
  noRecursive : Bool
  output : Option String
deriving DecidableEq, Repr

/-- `f"\x7bs:>10\x7d"`: right-align `s` in a field of width 10 with
spaces. -/
def padLeft10 (s : String) : String :=
  String.mk (List.replicate (10 - s.length) ' ') ++ s

/-- The size field of one output line: `format_size(size)` right-aligned to
width 10 in human-readable mode, the plain decimal rendering otherwise
(source lines 164-168 and 125-129). -/
def sizeStr (args : Args) (size : Nat) : String :=
  if args.humanReadable then padLeft10 (format_size size) else toString size

/-- One main-table line for an entry (source lines 156-179): the normal
`size TAB str(path)` line when the path encodes, otherwise the lossy line
written by the `UnicodeEncodeError` handler. -/
def entryLine (args : Args) (sp : Nat × PyPath) : String :=
  if sp.2.encodable then sizeStr args sp.1 ++ "\t" ++ sp.2.str
  else sizeStr args sp.1 ++ "\t" ++ sp.2.lossy

/-- The value of `print_file_sizes` (source lines 134-185): the
`unicode_errors` and `error_paths` lists it returns (the latter is never
appended to and stays empty), the lines it prints to stdout, and the lines
it writes to the output file. `openResult` models `open(args.output, "w")`:
`some err` is an `IOError` with text `err`, `none` a successful open. -/
structure ReportResult where
  unicodeErrors : List (Nat × PyPath)
  errorPaths : List PyPath
  stdoutLines : List String
  fileLines : List String
deriving DecidableEq, Repr

/-- `print_file_sizes` (source lines 134-185). With an output file that
fails to open it reports the error and returns at once; otherwise it
writes the header and one line per entry to the selected destination,
collecting in `unicode_errors` the entries whose path raised
`UnicodeEncodeError`, and prints the `Results saved` notice when an output
file was used. -/
def print_file_sizes (file_sizes : List (Nat × PyPath)) (args : Args)
    (openResult : Option String) : ReportResult :=
  match args.output with
  | some f =>
    match openResult with
    | some err =>
      ⟨[], [], ["Error: Could not open output file '" ++ f ++ "': " ++ err], []⟩
    | none =>
      ⟨file_sizes.filter (fun sp => !sp.2.encodable), [],
       ["Results saved to '" ++ f ++ "'"],
       "File Size\tPath" :: file_sizes.map (entryLine args)⟩
  | none =>
    ⟨file_sizes.filter (fun sp => !sp.2.encodable), [],
     "File Size\tPath" :: file_sizes.map (entryLine args), []⟩

/-- The 60-character `=` banner of the error report. -/
def eq60 : String := String.mk (List.replicate 60 '=')

/-- `print_error_report` (source lines 96-131): banner, then the
access-error section when `error_paths` is non-empty (one line per path,
lossy fallback when printing raises), then the display-error section when
`unicode_errors` is non-empty (per entry a size-and-lossy-path line and a
`Raw:` line with `repr(str(path))`). -/
def print_error_report (unicode_errors : List (Nat × PyPath))
    (error_paths : List PyPath) (args : Args) : List String :=
  ["\n" ++ eq60, "ERROR REPORT", eq60]
  ++ (if error_paths.isEmpty then [] else
      ("\n" ++ toString error_paths.length
        ++ " file(s) could not be accessed (permission denied or other OS error):")
      :: error_paths.map (fun p =>
          if p.encodable then "  - " ++ p.str else "  - " ++ p.lossy))
  ++ (if unicode_errors.isEmpty then [] else
      ("\n" ++ toString unicode_errors.length
        ++ " file(s) with invalid Unicode characters in filename:")
      :: unicode_errors.flatMap (fun sp =>
          ["  - " ++ sizeStr args sp.1 ++ "\t" ++ sp.2.lossy,
           "    Raw: " ++ sp.2.raw]))

/-- `file_sizes[: args.num]` (source lines 200-202) with Python slice
semantics: a non-negative bound takes that many leading elements, a
negative bound `n` is `len + n` clamped at zero. -/
def truncate (l : List (Nat × PyPath)) : Option Int → List (Nat × PyPath)
  | none => l
  | some n => if 0 ≤ n then l.take n.toNat else l.take ((l.length : Int) + n).toNat

/-- The observable outcome of `main`: its return value, the lines printed to
stdout, and the lines written to the output file. -/
structure MainResult where
  exitCode : Nat
  stdout : List String
  fileOut : List String
deriving DecidableEq, Repr

/-- `main` (source lines 187-213). `dirIsDir` is `Path(args.directory).is_dir()`;
`entries` is the traversal the selected pattern yields. After the scan the
entry list is sliced by `args.num`; an empty list prints the
`No files found` notice and returns 0. Otherwise `print_file_sizes` runs,
and — as in the source, where line 208 rebinds `error_paths` to the value
returned by `print_file_sizes`, discarding the scanner's list — the error
report is driven by the returned pair alone. -/
def main' (dirIsDir : Bool) (entries : List FsEntry) (args : Args)
    (openResult : Option String) : MainResult :=
  if dirIsDir then
    let scan := find_largest_files entries
    let file_sizes := truncate scan.fileSizes args.num
    if file_sizes.isEmpty then
      ⟨0, scan.stdoutLines ++ ["No files found in '" ++ args.directory ++ "'"], []⟩
    else
      let rep := print_file_sizes file_sizes args openResult
      let errOut :=
        if rep.errorPaths.isEmpty && rep.unicodeErrors.isEmpty then []
        else print_error_report rep.unicodeErrors rep.errorPaths args
      ⟨0, scan.stdoutLines ++ rep.stdoutLines ++ errOut, rep.fileLines⟩
  else
    ⟨1, ["Error: '" ++ args.directory ++ "' is not a directory"], []⟩

/-- Sample path `a.txt` (1 byte in the sample directory). -/
def pathA : PyPath := ⟨"a.txt", true, "a.txt", "'a.txt'"⟩

/-- Sample path `b.txt` (2 bytes in the sample directory). -/
def pathB : PyPath := ⟨"b.txt", true, "b.txt", "'b.txt'"⟩

/-- Sample path `c.txt` (3 bytes in the sample directory). -/
def pathC : PyPath := ⟨"c.txt", true, "c.txt", "'c.txt'"⟩

/-- Sample traversal entry: regular file `a.txt` of size 1. -/
def entryA : FsEntry := ⟨pathA, true, some 1⟩

/-- Sample traversal entry: regular file `b.txt` of size 2. -/
def entryB : FsEntry := ⟨pathB, true, some 2⟩

/-- Sample traversal entry: regular file `c.txt` of size 3. -/
def entryC : FsEntry := ⟨pathC, true, some 3⟩

/-- Sample path of an accessible file. -/
def pathOk : PyPath := ⟨"d/ok.txt", true, "d/ok.txt", "'d/ok.txt'"⟩

/-- Sample path of a file whose `stat` raises a permission error. -/
def pathDenied : PyPath := ⟨"d/denied.txt", true, "d/denied.txt", "'d/denied.txt'"⟩

/-- Sample path whose name cannot be encoded in the output encoding. -/
def pathBad : PyPath := ⟨"d/bad", false, "d/bad.lossy", "'d/bad.raw'"⟩

/-- Sample traversal entry: accessible regular file of size 5. -/
def entryOk : FsEntry := ⟨pathOk, true, some 5⟩

/-- Sample traversal entry: regular file whose `stat` raises `OSError`. -/
def entryDenied : FsEntry := ⟨pathDenied, true, none⟩

/-- Arguments of a plain run: `prog d` with no options. -/
def argsPlain : Args := ⟨"d", none, false, false, none⟩

/-- Arguments of `prog d -n 1`. -/
def argsTop1 : Args := ⟨"d", some 1, false, false, none⟩

/-- Arguments of `prog d -n 0`. -/
def argsNum0 : Args := ⟨"d", some 0, false, false, none⟩

/-- Arguments of `prog d -o out.txt`. -/
def argsOut : Args := ⟨"d", none, false, false, some "out.txt"⟩

/-- `insertDesc` permutes: it only inserts the new element. -/
theorem perm_insertDesc (x : Nat × PyPath) (l : List (Nat × PyPath)) :
    List.Perm (insertDesc x l) (x :: l) := by
  induction l with
  | nil => exact List.Perm.refl _
  | cons y ys ih =>
    by_cases h : x.1 < y.1
    · simp only [insertDesc, if_pos h]
      exact (ih.cons y).trans (List.Perm.swap x y ys)
    · simp only [insertDesc, if_neg h]
      exact List.Perm.refl _

/-- `sortDesc` is a permutation of its input. -/
theorem sortDesc_perm (l : List (Nat × PyPath)) : List.Perm (sortDesc l) l := by
  induction l with
  | nil => exact List.Perm.refl _
  | cons x xs ih =>
    exact (perm_insertDesc x (sortDesc xs)).trans (ih.cons x)

/-- Inserting into a list sorted by non-increasing key keeps it sorted. -/
theorem pairwise_insertDesc (x : Nat × PyPath) (l : List (Nat × PyPath))
    (h : List.Pairwise (fun a b => b.1 ≤ a.1) l) :
    List.Pairwise (fun a b => b.1 ≤ a.1) (insertDesc x l) := by
  induction l with
  | nil => simp [insertDesc]
  | cons y ys ih =>
    rcases List.pairwise_cons.mp h with ⟨hy, hys⟩
    by_cases hc : x.1 < y.1
    · simp only [insertDesc, if_pos hc]
      refine List.pairwise_cons.mpr ⟨?_, ih hys⟩
      intro z hz
      rcases List.mem_cons.mp ((perm_insertDesc x ys).mem_iff.mp hz) with hz | hz
      · exact hz ▸ Nat.le_of_lt hc
      · exact hy z hz
    · simp only [insertDesc, if_neg hc]
      have hxy : y.1 ≤ x.1 := Nat.le_of_not_lt hc
      refine List.pairwise_cons.mpr ⟨?_, h⟩
      intro z hz
      rcases List.mem_cons.mp hz with hz | hz
      · exact hz ▸ hxy
      · exact (hy z hz).trans hxy

/-- The output of `sortDesc` is sorted by non-increasing key. -/
theorem sortDesc_pairwise (l : List (Nat × PyPath)) :
    List.Pairwise (fun a b => b.1 ≤ a.1) (sortDesc l) := by
  induction l with
  | nil => simp [sortDesc]
  | cons x xs ih => exact pairwise_insertDesc x (sortDesc xs) ih

/-- Filtering the equal-key elements commutes with `insertDesc`: the new
element lands in front of every equal-key element already present. -/
theorem filter_insertDesc (x : Nat × PyPath) (l : List (Nat × PyPath)) (s : Nat) :
    (insertDesc x l).filter (fun q => q.1 == s)
      = if x.1 == s then x :: l.filter (fun q => q.1 == s)
        else l.filter (fun q => q.1 == s) := by
  induction l with
  | nil =>
    by_cases hx : x.1 = s
    · simp [insertDesc, List.filter_cons, hx]
    · simp [insertDesc, List.filter_cons, hx]
  | cons y ys ih =>
    by_cases hc : x.1 < y.1
    · simp only [insertDesc, if_pos hc, List.filter_cons]
      by_cases hy : y.1 = s
      · by_cases hx : x.1 = s
        · omega
        · simp [ih, hy, hx]
      · simp [ih, hy]
    · simp only [insertDesc, if_neg hc, List.filter_cons]

/-- `sortDesc` is stable: the subsequence of any fixed key is untouched. -/
theorem sortDesc_filter (l : List (Nat × PyPath)) (s : Nat) :
    (sortDesc l).filter (fun q => q.1 == s) = l.filter (fun q => q.1 == s) := by
  induction l with
  | nil => rfl
  | cons x xs ih =>
    show (insertDesc x (sortDesc xs)).filter _ = _
    rw [filter_insertDesc]
    by_cases hx : x.1 = s
    · simp [List.filter_cons, hx, ih]
    · simp [List.filter_cons, hx, ih]

/-- C1: for every directory scanned, the list of `(size, path)` entries
returned by `find_largest_files` is sorted by size in non-increasing
order. -/
theorem spec_C1_sorted_desc (entries : List FsEntry) :
    List.Pairwise (fun a b => b.1 ≤ a.1) (find_largest_files entries).fileSizes := by
  simpa [find_largest_files] using sortDesc_pairwise (scanLoop 0 entries).sizes

/-- C2: the sort is stable with no secondary key: for any size `s`, the
entries of that size appear in the returned list exactly in the order the
scanning loop discovered them (the order of `(scanLoop 0 entries).sizes`). -/
theorem spec_C2_stable (entries : List FsEntry) (s : Nat) :
    (find_largest_files entries).fileSizes.filter (fun q => q.1 == s)
      = (scanLoop 0 entries).sizes.filter (fun q => q.1 == s) := by
  simpa [find_largest_files] using sortDesc_filter (scanLoop 0 entries).sizes s

/-- A natural number below ten prints as a single character. -/
theorem digit_repr_length (m : Nat) (h : m < 10) : (toString m).length = 1 := by
  interval_cases m <;> rfl

/-- `fmt1` always renders as an integer part, a dot, and one digit. -/
theorem fmt1_shape (n d : Nat) :
    ∃ a b : Nat, b < 10 ∧ (toString b).length = 1 ∧
      fmt1 n d = (toString a ++ "." ++ toString b) := by
  refine ⟨roundHalfEven (n * 10) d / 10, roundHalfEven (n * 10) d % 10,
    Nat.mod_lt _ (by norm_num), digit_repr_length _ (Nat.mod_lt _ (by norm_num)), rfl⟩

/-- C4: for every non-negative integer byte count `n`, `format_size n` is a
number with exactly one fractional digit followed by the unit of the
binary-step selection `unitOf`: `B` below 1024, `KB` below 1024², and so on
through `MB`, `GB`, `TB`, with `PB` for every `n ≥ 1024⁵`. -/
theorem spec_C4_format_size_unit (n : Nat) :
    ∃ a b : Nat, b < 10 ∧ (toString b).length = 1 ∧
      format_size n = (toString a ++ "." ++ toString b) ++ unitOf n := by
  unfold format_size unitOf
  split_ifs with h1 h2 h3 h4 h5
  · obtain ⟨a, b, hb, hl, he⟩ := fmt1_shape n 1
    exact ⟨a, b, hb, hl, by rw [he]⟩
  · obtain ⟨a, b, hb, hl, he⟩ := fmt1_shape n 1024
    exact ⟨a, b, hb, hl, by rw [he]⟩
  · obtain ⟨a, b, hb, hl, he⟩ := fmt1_shape n (1024 ^ 2)
    exact ⟨a, b, hb, hl, by rw [he]⟩
  · obtain ⟨a, b, hb, hl, he⟩ := fmt1_shape n (1024 ^ 3)
    exact ⟨a, b, hb, hl, by rw [he]⟩
  · obtain ⟨a, b, hb, hl, he⟩ := fmt1_shape n (1024 ^ 4)
    exact ⟨a, b, hb, hl, by rw [he]⟩
  · obtain ⟨a, b, hb, hl, he⟩ := fmt1_shape n (1024 ^ 5)
    exact ⟨a, b, hb, hl, by rw [he]⟩

/-- How many sized entries carry a given path: one per traversal entry that
is a regular file, whose `stat` succeeded, and whose path is `p`. -/
theorem countP_scanLoop_sizes (c : Nat) (es : List FsEntry) (p : PyPath) :
    (scanLoop c es).sizes.countP (fun x => x.2 == p)
      = es.countP (fun e => e.isFile && e.statResult.isSome && (e.path == p)) := by
  induction es generalizing c with
  | nil => simp [scanLoop]
  | cons e es ih =>
    cases hf : e.isFile with
    | false => simp [scanLoop, hf, List.countP_cons, ih c]
    | true =>
      cases hs : e.statResult with
      | none => simp [scanLoop, hf, hs, List.countP_cons, ih c]
      | some sz => simp [scanLoop, hf, hs, List.countP_cons, ih (c + 1)]

/-- How many error paths equal a given path: one per traversal entry that is
a regular file, whose `stat` raised, and whose path is `p`. -/
theorem countP_scanLoop_errors (c : Nat) (es : List FsEntry) (p : PyPath) :
    (scanLoop c es).errors.countP (fun q => q == p)
      = es.countP (fun e => e.isFile && e.statResult.isNone && (e.path == p)) := by
  induction es generalizing c with
  | nil => simp [scanLoop]
  | cons e es ih =>
    cases hf : e.isFile with
    | false => simp [scanLoop, hf, List.countP_cons, ih c]
    | true =>
      cases hs : e.statResult with
      | none => simp [scanLoop, hf, hs, List.countP_cons, ih c]
      | some sz => simp [scanLoop, hf, hs, List.countP_cons, ih (c + 1)]

/-- When every traversal entry has a distinct path, the number of traversal
entries with path `p` is exactly one for each `p` that occurs. -/
theorem countP_path_eq_one (es : List FsEntry)
    (hnd : (es.map FsEntry.path).Nodup) (e : FsEntry) (he : e ∈ es) :
    es.countP (fun x => x.path == e.path) = 1 := by
  have h1 : (es.map FsEntry.path).count e.path = 1 :=
    List.count_eq_one_of_mem hnd (List.mem_map_of_mem FsEntry.path he)
  rw [List.count_eq_countP, List.countP_map] at h1
  exact h1

/-- C9: with distinct traversal paths, the two lists returned by
`find_largest_files` partition the regular files: a file whose `stat`
succeeded contributes exactly one `(size, path)` entry and is absent from
the error-path list, and a file whose `stat` raised appears once in the
error-path list and contributes no sized entry. -/
theorem spec_C9_partition (entries : List FsEntry)
    (hnd : (entries.map FsEntry.path).Nodup) (e : FsEntry)
    (he : e ∈ entries) (hf : e.isFile = true) :
    (∀ sz, e.statResult = some sz →
        (find_largest_files entries).fileSizes.countP (fun x => x.2 == e.path) = 1
          ∧ (find_largest_files entries).errorPaths.countP (fun q => q == e.path) = 0)
    ∧ (e.statResult = none →
        (find_largest_files entries).errorPaths.countP (fun q => q == e.path) = 1
          ∧ (find_largest_files entries).fileSizes.countP (fun x => x.2 == e.path) = 0) := by
  have hperm : List.Perm (find_largest_files entries).fileSizes (scanLoop 0 entries).sizes := by
    simpa [find_largest_files] using sortDesc_perm (scanLoop 0 entries).sizes
  have hsz : (find_largest_files entries).fileSizes.countP (fun x => x.2 == e.path)
      = entries.countP (fun x => x.isFile && x.statResult.isSome && (x.path == e.path)) := by
    rw [hperm.countP_eq, countP_scanLoop_sizes]
  have herrL : (find_largest_files entries).errorPaths = (scanLoop 0 entries).errors := by
    simp [find_largest_files]
  have herr : (find_largest_files entries).errorPaths.countP (fun q => q == e.path)
      = entries.countP (fun x => x.isFile && x.statResult.isNone && (x.path == e.path)) := by
    rw [herrL, countP_scanLoop_errors]
  have hone := countP_path_eq_one entries hnd e he
  have hmonoS : entries.countP
      (fun x => x.isFile && x.statResult.isSome && (x.path == e.path)) ≤ 1 := by
    calc entries.countP (fun x => x.isFile && x.statResult.isSome && (x.path == e.path))
        ≤ entries.countP (fun x => x.path == e.path) :=
          List.countP_mono_left (fun a _ hp => by
            simp only [Bool.and_eq_true] at hp
            exact hp.2)
      _ = 1 := hone
  have hmonoE : entries.countP
      (fun x => x.isFile && x.statResult.isNone && (x.path == e.path)) ≤ 1 := by
    calc entries.countP (fun x => x.isFile && x.statResult.isNone && (x.path == e.path))
        ≤ entries.countP (fun x => x.path == e.path) :=
          List.countP_mono_left (fun a _ hp => by
            simp only [Bool.and_eq_true] at hp
            exact hp.2)
      _ = 1 := hone
  constructor
  · intro sz hs
    constructor
    · rw [hsz]
      exact Nat.le_antisymm hmonoS
        (List.countP_pos_iff.mpr ⟨e, he, by simp [hf, hs]⟩)
    · rw [herr]
      by_contra hne
      obtain ⟨e', he', hp⟩ := List.countP_pos_iff.mp (Nat.pos_of_ne_zero hne)
      simp only [Bool.and_eq_true, beq_iff_eq] at hp
      have heq : e' = e := List.inj_on_of_nodup_map hnd he' he hp.2
      rw [heq, hs] at hp
      simp at hp
  · intro hs
    constructor
    · rw [herr]
      exact Nat.le_antisymm hmonoE
        (List.countP_pos_iff.mpr ⟨e, he, by simp [hf, hs]⟩)
    · rw [hsz]
      by_contra hne
      obtain ⟨e', he', hp⟩ := List.countP_pos_iff.mp (Nat.pos_of_ne_zero hne)
      simp only [Bool.and_eq_true, beq_iff_eq] at hp
      have heq : e' = e := List.inj_on_of_nodup_map hnd he' he hp.2
      rw [heq, hs] at hp
      simp at hp

/-- C9 witness: on the concrete directory with one accessible and one
access-failing file, the accessible file of size 5 appears exactly once
among the sized entries and never among the error paths. -/
theorem spec_C9_witness :
    (find_largest_files [entryOk, entryDenied]).fileSizes.countP
        (fun x => x.2 == entryOk.path) = 1
      ∧ (find_largest_files [entryOk, entryDenied]).errorPaths.countP
        (fun q => q == entryOk.path) = 0 :=
  (spec_C9_partition [entryOk, entryDenied] (by decide) entryOk
    (by decide) (by decide)).1 5 rfl

/-- C3: on a directory with an accessible 5-byte file and a file whose
`stat` raises, the scanner does return the failed path among its error
paths, yet the run prints only the scan notice, the header and the sorted
accessible entry: no `ERROR REPORT` section appears, because `main` line
208 rebinds `error_paths` to the always-empty list that
`print_file_sizes` returns, discarding the scanner's list. -/
theorem spec_C3_error_report_lost :
    (find_largest_files [entryOk, entryDenied]).errorPaths = [pathDenied]
    ∧ main' true [entryOk, entryDenied] argsPlain none
        = ⟨0, ["Scanned 1 files total. Sorting...", "File Size\tPath", "5\td/ok.txt"], []⟩
    ∧ ((main' true [entryOk, entryDenied] argsPlain none).stdout.contains
        "ERROR REPORT") = false := by
  refine ⟨by decide, by decide, by decide⟩

/-- Slicing the empty list yields the empty list for every bound. -/
theorem truncate_nil (o : Option Int) : truncate [] o = [] := by
  cases o with
  | none => rfl
  | some n => by_cases h : 0 ≤ n <;> simp [truncate, h]

/-- A traversal without regular files leaves the scan state empty. -/
theorem scanLoop_no_files (c : Nat) (es : List FsEntry)
    (h : ∀ e ∈ es, e.isFile = false) : scanLoop c es = ⟨[], [], [], c⟩ := by
  induction es generalizing c with
  | nil => rfl
  | cons e es ih =>
    have hf : e.isFile = false := h e (List.mem_cons_self e es)
    simp [scanLoop, hf, ih c (fun x hx => h x (List.mem_cons_of_mem e hx))]

/-- C5: `main` returns 1 exactly when the directory argument does not
resolve to a directory, printing an error naming the path; in every other
case it returns 0, and on a directory with zero files it prints only the
`No files found` notice — no header and no table. -/
theorem spec_C5_exit_codes (dirIsDir : Bool) (entries : List FsEntry)
    (args : Args) (openResult : Option String) :
    ((main' dirIsDir entries args openResult).exitCode = 1 ↔ dirIsDir = false)
    ∧ (dirIsDir = false →
        main' dirIsDir entries args openResult
          = ⟨1, ["Error: '" ++ args.directory ++ "' is not a directory"], []⟩)
    ∧ (dirIsDir = true → (∀ e ∈ entries, e.isFile = false) →
        main' dirIsDir entries args openResult
          = ⟨0, ["No files found in '" ++ args.directory ++ "'"], []⟩) := by
  cases dirIsDir with
  | false =>
    refine ⟨by simp [main'], fun _ => by simp [main'], fun h => by simp at h⟩
  | true =>
    have h0 : (main' true entries args openResult).exitCode = 0 := by
      unfold main'
      simp only [if_true]
      split <;> rfl
    refine ⟨by simp [h0], fun h => by simp at h, fun _ hnof => ?_⟩
    have hscan : scanLoop 0 entries = ⟨[], [], [], 0⟩ := scanLoop_no_files 0 entries hnof
    unfold main' find_largest_files
    rw [hscan]
    simp [truncate_nil, sortDesc]

/-- C6: truncation with a non-negative `-n N` is the prefix-take of length
`N` on the size-sorted sequence, applied before reporting; concretely,
`-n 1` on the three-file sample directory reports only the single largest
entry. -/
theorem spec_C6_prefix_take :
    (∀ (l : List (Nat × PyPath)) (n : Int), 0 ≤ n →
        truncate l (some n) = l.take n.toNat)
    ∧ main' true [entryA, entryB, entryC] argsTop1 none
        = ⟨0, ["Scanned 3 files total. Sorting...", "File Size\tPath", "3\tc.txt"],
            []⟩ := by
  refine ⟨fun l n hn => by simp [truncate, hn], by decide⟩

/-- C6 witness: the prefix-take clause applied to a one-entry list with
bound 2. -/
theorem spec_C6_witness :
    (0 : Int) ≤ 2
      ∧ truncate [(5, pathOk)] (some 2) = [(5, pathOk)].take (2 : Int).toNat :=
  ⟨by decide, spec_C6_prefix_take.1 [(5, pathOk)] 2 (by decide)⟩

/-- C5 witness: an invalid directory named `d` gives exit code 1 with the
error message, and a valid directory with an empty traversal gives the
`No files found` run. -/
theorem spec_C5_witness :
    (main' false [] argsPlain none).exitCode = 1
      ∧ main' false [] argsPlain none
          = ⟨1, ["Error: '" ++ argsPlain.directory ++ "' is not a directory"], []⟩
      ∧ main' true [] argsPlain none
          = ⟨0, ["No files found in '" ++ argsPlain.directory ++ "'"], []⟩ :=
  ⟨(spec_C5_exit_codes false [] argsPlain none).1.mpr rfl,
   (spec_C5_exit_codes false [] argsPlain none).2.1 rfl,
   (spec_C5_exit_codes true [] argsPlain none).2.2 rfl (by simp)⟩

/-- C7: when the output file cannot be opened, the run keeps the scan's
stdout lines, reports the open error, writes nothing to the output file,
prints no listing and no error report, and exits 0. -/
theorem spec_C7_output_open_failure (entries : List FsEntry) (args : Args)
    (f err : String) (hout : args.output = some f)
    (hne : (truncate (find_largest_files entries).fileSizes args.num).isEmpty
      = false) :
    main' true entries args (some err)
      = ⟨0, (find_largest_files entries).stdoutLines
            ++ ["Error: Could not open output file '" ++ f ++ "': " ++ err],
          []⟩ := by
  unfold main'
  simp [print_file_sizes, hne, hout]

/-- C7 witness: a one-file scan whose `-o out.txt` destination fails to open
with message `boom`. -/
theorem spec_C7_witness :
    argsOut.output = some "out.txt"
      ∧ (truncate (find_largest_files [entryOk]).fileSizes argsOut.num).isEmpty
          = false
      ∧ main' true [entryOk] argsOut (some "boom")
          = ⟨0, (find_largest_files [entryOk]).stdoutLines
                ++ ["Error: Could not open output file 'out.txt': boom"], []⟩ :=
  ⟨rfl, by decide,
   spec_C7_output_open_failure [entryOk] argsOut "out.txt" "boom" rfl (by decide)⟩

/-- C10: with `-n 0` on a directory that does contain a sized file, the
sorted list is non-empty yet the truncation empties it, so the run prints
the `No files found` notice after the scan lines and exits 0; with a
negative `-n N`, Python slice semantics keep all but the last `|N|` sorted
entries rather than the first `N`. -/
theorem spec_C10_nonpositive_num :
    (∀ (entries : List FsEntry) (args : Args) (openResult : Option String),
        args.num = some 0 →
        (∃ e ∈ entries, e.isFile = true ∧ e.statResult ≠ none) →
        (find_largest_files entries).fileSizes ≠ []
          ∧ (main' true entries args openResult).exitCode = 0
          ∧ (main' true entries args openResult).stdout
              = (find_largest_files entries).stdoutLines
                ++ ["No files found in '" ++ args.directory ++ "'"])
    ∧ (∀ (l : List (Nat × PyPath)) (n : Int), n < 0 →
        truncate l (some n) = l.take (l.length - (-n).toNat)) := by
  constructor
  · intro entries args openResult hnum hex
    obtain ⟨e, he, hf, hs⟩ := hex
    cases hsr : e.statResult with
    | none => exact absurd hsr hs
    | some sz =>
      have hpos : 0 < (scanLoop 0 entries).sizes.countP (fun x => x.2 == e.path) := by
        rw [countP_scanLoop_sizes]
        exact List.countP_pos_iff.mpr ⟨e, he, by simp [hf, hsr]⟩
      have hperm : List.Perm (find_largest_files entries).fileSizes
          (scanLoop 0 entries).sizes := by
        simpa [find_largest_files] using sortDesc_perm (scanLoop 0 entries).sizes
      have hne : (find_largest_files entries).fileSizes ≠ [] := by
        intro hemp
        have heq := hperm.countP_eq (fun x => x.2 == e.path)
        rw [hemp] at heq
        simp only [List.countP_nil] at heq
        omega
      have hmain : main' true entries args openResult
          = ⟨0, (find_largest_files entries).stdoutLines
                ++ ["No files found in '" ++ args.directory ++ "'"], []⟩ := by
        unfold main'
        simp [hnum, truncate]
      exact ⟨hne, by rw [hmain], by rw [hmain]⟩
  · intro l n hn
    have hnn : ¬ 0 ≤ n := by omega
    simp only [truncate, if_neg hnn]
    congr 1
    omega

/-- C10 witness: `-n 0` on the three-file sample directory, and slice bound
`-1` on its sorted entry list. -/
theorem spec_C10_witness :
    ((find_largest_files [entryA, entryB, entryC]).fileSizes ≠ []
      ∧ (main' true [entryA, entryB, entryC] argsNum0 none).exitCode = 0
      ∧ (main' true [entryA, entryB, entryC] argsNum0 none).stdout
          = (find_largest_files [entryA, entryB, entryC]).stdoutLines
            ++ ["No files found in '" ++ argsNum0.directory ++ "'"])
    ∧ truncate [(3, pathC), (2, pathB), (1, pathA)] (some (-1))
        = [(3, pathC), (2, pathB), (1, pathA)].take
            ([(3, pathC), (2, pathB), (1, pathA)].length - (-(-1) : Int).toNat) :=
  ⟨spec_C10_nonpositive_num.1 [entryA, entryB, entryC] argsNum0 none rfl
      ⟨entryA, by decide, by decide, by decide⟩,
   spec_C10_nonpositive_num.2 [(3, pathC), (2, pathB), (1, pathA)] (-1) (by decide)⟩

/-- C8: an entry whose path cannot be encoded does not fail the reporter:
its table line is written with the lossy rendering, the `(size, path)`
pair is recorded in the display-error list, and the trailing error report
carries both the size-and-lossy-path line and the raw diagnostic line for
it. -/
theorem spec_C8_display_errors (fs : List (Nat × PyPath)) (args : Args)
    (openResult : Option String) (sp : Nat × PyPath)
    (hmem : sp ∈ fs) (henc : sp.2.encodable = false) (hout : args.output = none) :
    ((sizeStr args sp.1 ++ "\t" ++ sp.2.lossy)
        ∈ (print_file_sizes fs args openResult).stdoutLines)
    ∧ sp ∈ (print_file_sizes fs args openResult).unicodeErrors
    ∧ (("  - " ++ sizeStr args sp.1 ++ "\t" ++ sp.2.lossy)
        ∈ print_error_report (print_file_sizes fs args openResult).unicodeErrors
            (print_file_sizes fs args openResult).errorPaths args)
    ∧ (("    Raw: " ++ sp.2.raw)
        ∈ print_error_report (print_file_sizes fs args openResult).unicodeErrors
            (print_file_sizes fs args openResult).errorPaths args) := by
  have hrep : print_file_sizes fs args openResult
      = ⟨fs.filter (fun q => !q.2.encodable), [],
         "File Size\tPath" :: fs.map (entryLine args), []⟩ := by
    simp [print_file_sizes, hout]
  have hue : sp ∈ fs.filter (fun q => !q.2.encodable) :=
    List.mem_filter.mpr ⟨hmem, by simp [henc]⟩
  have huene : (fs.filter (fun q => !q.2.encodable)).isEmpty = false := by
    have h1 : fs.filter (fun q => !q.2.encodable) ≠ [] := List.ne_nil_of_mem hue
    simpa [List.isEmpty_iff] using h1
  refine ⟨?_, ?_, ?_, ?_⟩
  · rw [hrep]
    refine List.mem_cons_of_mem _ (List.mem_map.mpr ⟨sp, hmem, ?_⟩)
    simp [entryLine, henc]
  · rw [hrep]
    exact hue
  · rw [hrep]
    simp only [print_error_report, huene, List.isEmpty_nil, if_true, if_false,
      List.append_nil]
    refine List.mem_append_right _ (List.mem_cons_of_mem _ ?_)
    exact List.mem_flatMap.mpr ⟨sp, hue, by simp⟩
  · rw [hrep]
    simp only [print_error_report, huene, List.isEmpty_nil, if_true, if_false,
      List.append_nil]
    refine List.mem_append_right _ (List.mem_cons_of_mem _ ?_)
    exact List.mem_flatMap.mpr ⟨sp, hue, by simp⟩

/-- C8 witness: a single 7-byte entry with an unencodable path on a plain
stdout run. -/
theorem spec_C8_witness :
    ((sizeStr argsPlain 7 ++ "\t" ++ pathBad.lossy)
        ∈ (print_file_sizes [(7, pathBad)] argsPlain none).stdoutLines)
    ∧ (7, pathBad) ∈ (print_file_sizes [(7, pathBad)] argsPlain none).unicodeErrors
    ∧ (("  - " ++ sizeStr argsPlain 7 ++ "\t" ++ pathBad.lossy)
        ∈ print_error_report
            (print_file_sizes [(7, pathBad)] argsPlain none).unicodeErrors
            (print_file_sizes [(7, pathBad)] argsPlain none).errorPaths argsPlain)
    ∧ (("    Raw: " ++ pathBad.raw)
        ∈ print_error_report
            (print_file_sizes [(7, pathBad)] argsPlain none).unicodeErrors
            (print_file_sizes [(7, pathBad)] argsPlain none).errorPaths argsPlain) :=
  spec_C8_display_errors [(7, pathBad)] argsPlain none (7, pathBad)
    (by decide) (by decide) rfl
